import Mathlib

/-!
Shallow embedding of the LiquidCrystal IIC driver (files
`LiquidCrystal_IIC.cpp` and `I2CIO.cpp`) over a mocked two-wire bus.

The bus is modelled by a trace of events (`BusEv`): every
`Wire.beginTransmission`, `Wire.write`, `Wire.endTransmission` and
`Wire.requestFrom` call of the source is emitted into the trace in
program order.  Data coming back from the bus (the byte obtained by
`Wire.read`, the per-address acknowledge status returned by
`Wire.endTransmission` during the scan, the status of the closing
`Wire.endTransmission` of a transaction) is supplied by mock inputs,
exactly as the specification's "mocked transport" does.

Machine bytes are modelled as `Nat` with explicit masking (`% 256`,
`&&& 255`, complements as `255 ^^^ m`) where the C code truncates to
`uint8_t`.
-/

/-- Bus event: one `Wire` primitive call, in program order. -/
inductive BusEv where
  | beginT  : Nat → BusEv
  | writeB  : Nat → BusEv
  | endT    : BusEv
  | reqFrom : Nat → Nat → BusEv
  deriving DecidableEq, Repr

/-- Chip type enumeration from `LiquidCrystal_IIC.h`. -/
inductive iicChipType where
  | IIC_UNKNOWN
  | IIC_PCF8574
  | IIC_MCP23008
  deriving DecidableEq, Repr

export iicChipType (IIC_UNKNOWN IIC_PCF8574 IIC_MCP23008)

/-- Modelled from the spec: backlight polarity enumeration (`POSITIVE`/`NEGATIVE`)
declared in the base-class header `LCD.h`, which is part of the repository but
not under `src/`. -/
inductive t_backlighPol where
  | POSITIVE
  | NEGATIVE
  deriving DecidableEq, Repr

export t_backlighPol (POSITIVE NEGATIVE)

/-- Modelled from the spec: mode tag for a command byte, from the base-class
header `LCD.h` (not under `src/`).  Command mode must be the numeric value `0`
because `write4bits` ORs the mode value into the rendered byte and the spec
says command mode leaves register-select low. -/
def COMMAND : Nat := 0

/-- Modelled from the spec: mode tag for a data byte, from `LCD.h` (not under
`src/`); distinct from `COMMAND` and `FOUR_BITS`. -/
def DATA : Nat := 1

/-- Modelled from the spec: mode tag for a raw 4-bit command nibble transfer,
from `LCD.h` (not under `src/`); distinct from `COMMAND` and `DATA`. -/
def FOUR_BITS : Nat := 2

/-- Arduino `HIGH` level constant. -/
def HIGH : Nat := 1

/-- Sentinel for an unresolved bus address (`LiquidCrystal_IIC.h`). -/
def IIC_ADDR_UNKNOWN : Nat := 0xFF

/-- Driver instance state: the private fields of class `LiquidCrystal_IIC`. -/
structure LiquidCrystal_IIC where
  _Addr : Nat
  _iicType : iicChipType
  _backlightPinMask : Nat
  _backlightStsMask : Nat
  _polarity : t_backlighPol
  _En : Nat
  _Rw : Nat
  _Rs : Nat
  _data_pins : Fin 4 → Nat

/-- Model of `LiquidCrystal_IIC::config`: stores the address and chip type and turns
each pin number into a single-bit mask (`1 << pin`, truncated to a byte as the
`uint8_t` member fields do). -/
def LiquidCrystal_IIC.config (iic_Addr : Nat) (iic_type : iicChipType)
    (En Rw Rs d4 d5 d6 d7 : Nat) : LiquidCrystal_IIC :=
  { _Addr := iic_Addr
    _iicType := iic_type
    _backlightPinMask := 0
    _backlightStsMask := 0
    _polarity := POSITIVE
    _En := (1 <<< En) % 256
    _Rw := (1 <<< Rw) % 256
    _Rs := (1 <<< Rs) % 256
    _data_pins := ![(1 <<< d4) % 256, (1 <<< d5) % 256, (1 <<< d6) % 256, (1 <<< d7) % 256] }

/-- Model of `LiquidCrystal_IIC::setBacklightPin`: records the backlight pin mask and
polarity; touches no hardware. -/
def LiquidCrystal_IIC.setBacklightPin (c : LiquidCrystal_IIC) (value : Nat)
    (pol : t_backlighPol) : LiquidCrystal_IIC :=
  { c with _backlightPinMask := (1 <<< value) % 256, _polarity := pol }

/-- Rendered byte computed by `LiquidCrystal_IIC::write4bits` (the local
`pinMapValue`, the spec's `renderNibble`): OR of the data-pin masks selected by
the four nibble bits (least-significant first), then the mode value (replaced
by the register-select mask when the mode is `DATA`), then the backlight
status mask. -/
def LiquidCrystal_IIC.renderNibble (c : LiquidCrystal_IIC) (value mode : Nat) : Nat :=
  let pinMapValue :=
    (if value &&& 1 == 1 then c._data_pins 0 else 0) |||
    (if (value >>> 1) &&& 1 == 1 then c._data_pins 1 else 0) |||
    (if (value >>> 2) &&& 1 == 1 then c._data_pins 2 else 0) |||
    (if (value >>> 3) &&& 1 == 1 then c._data_pins 3 else 0)
  let mode := if mode == DATA then c._Rs else mode
  pinMapValue ||| mode ||| c._backlightStsMask

/-- Model of `LiquidCrystal_IIC::pulseEnable`: within the open transaction, write the
byte with the enable bit high, then the same byte with the enable bit low
(`data & ~_En`, the complement taken on a byte). -/
def LiquidCrystal_IIC.pulseEnable (c : LiquidCrystal_IIC) (data : Nat) : List BusEv :=
  [BusEv.writeB (data ||| c._En), BusEv.writeB (data &&& (255 ^^^ c._En))]

/-- Model of `LiquidCrystal_IIC::write4bits`: render the nibble and pulse the enable
line with the rendered byte. -/
def LiquidCrystal_IIC.write4bits (c : LiquidCrystal_IIC) (value mode : Nat) : List BusEv :=
  c.pulseEnable (c.renderNibble value mode)

/-- Register-pointer preamble of `send`/`setBacklight`: point the MCP23008 to
OLAT (register `0x0A`) before the data bytes; nothing for other chip types. -/
def LiquidCrystal_IIC.olatPreamble (c : LiquidCrystal_IIC) : List BusEv :=
  if c._iicType == IIC_MCP23008 then [BusEv.writeB 0x0A] else []

/-- Model of `LiquidCrystal_IIC::send`: no-op on the unresolved-address sentinel; in
`FOUR_BITS` mode one transaction sending the low nibble as a command; in data
mode carriage returns and line feeds are discarded; otherwise one transaction
sending high nibble then low nibble.  The instance state is never mutated
(the returned state is the input state). -/
def LiquidCrystal_IIC.send (c : LiquidCrystal_IIC) (value mode : Nat) :
    LiquidCrystal_IIC × List BusEv :=
  if c._Addr == IIC_ADDR_UNKNOWN then (c, [])
  else if mode == FOUR_BITS then
    (c, [BusEv.beginT c._Addr] ++ c.olatPreamble
        ++ c.write4bits (value &&& 0x0F) COMMAND ++ [BusEv.endT])
  else if mode == DATA && (value == 0x0D || value == 0x0A) then (c, [])
  else
    (c, [BusEv.beginT c._Addr] ++ c.olatPreamble
        ++ c.write4bits (value >>> 4) mode
        ++ c.write4bits (value &&& 0x0F) mode ++ [BusEv.endT])

/-- Model of `LiquidCrystal_IIC::setBacklight`: with no configured backlight pin this
is a no-op; otherwise recompute the status mask from the polarity and the
requested level and push it in one transaction (with the OLAT pointer
preamble on MCP23008). -/
def LiquidCrystal_IIC.setBacklight (c : LiquidCrystal_IIC) (value : Nat) :
    LiquidCrystal_IIC × List BusEv :=
  if c._backlightPinMask != 0 then
    let sts :=
      if (c._polarity == POSITIVE && decide (value > 0))
          || (c._polarity == NEGATIVE && value == 0)
      then c._backlightPinMask else 0
    ({ c with _backlightStsMask := sts },
     [BusEv.beginT c._Addr] ++ c.olatPreamble ++ [BusEv.writeB sts, BusEv.endT])
  else (c, [])

/-- Model of `LiquidCrystal_IIC::IdentifyIOexp` run against a mocked transport whose
read returns `busByte`: emits the destructive probe trace (one transaction
writing `0x00` then `0xFF`, a second transaction writing `0x00`, then a
one-byte read) and classifies the byte read back. -/
def LiquidCrystal_IIC.IdentifyIOexp (address busByte : Nat) : List BusEv × iicChipType :=
  let t :=
    [BusEv.beginT address, BusEv.writeB 0x00, BusEv.writeB 0xFF, BusEv.endT,
     BusEv.beginT address, BusEv.writeB 0x00, BusEv.endT,
     BusEv.reqFrom address 1]
  let data := busByte
  let chiptype :=
    if data == 0xFF then IIC_MCP23008
    else if data == 0x00 then IIC_PCF8574
    else IIC_UNKNOWN
  (t, chiptype)

/-- Scan loop of `LiquidCrystal_IIC::LocateDevice`, one step per candidate
address: `ack a` is the mocked acknowledge status of the empty probe
transaction at address `a` (`Wire.endTransmission() == 0`) and `readAt a` the
byte the identification probe reads back at `a`.  `n` counts the remaining
addresses of the 128-address scan. -/
def LiquidCrystal_IIC.locateLoop (ack : Nat → Bool) (readAt : Nat → Nat) :
    Nat → Nat → Nat
  | 0, _ => IIC_ADDR_UNKNOWN
  | n + 1, address =>
    if ack address then
      if (LiquidCrystal_IIC.IdentifyIOexp address (readAt address)).2 == IIC_UNKNOWN then
        LiquidCrystal_IIC.locateLoop ack readAt n (address + 1)
      else address
    else LiquidCrystal_IIC.locateLoop ack readAt n (address + 1)

/-- Model of `LiquidCrystal_IIC::LocateDevice`: scan addresses 0..127 in ascending
order, returning the first acknowledging and positively identified address,
or the unresolved sentinel. -/
def LiquidCrystal_IIC.LocateDevice (ack : Nat → Bool) (readAt : Nat → Nat) : Nat :=
  LiquidCrystal_IIC.locateLoop ack readAt 128 0

/-- Mocked bus environment for `init`: per-address acknowledge status,
per-address identification read byte, and the status returned by the closing
`Wire.endTransmission` of the port-initialization transaction. -/
structure InitEnv where
  ack : Nat → Bool
  readAt : Nat → Nat
  endStatus : Nat

/-- Model of `LiquidCrystal_IIC::init`: resolve the address (via `LocateDevice`) and
chip type (via `IdentifyIOexp`) when unknown, returning `-1` if either stays
unresolved, otherwise the status of the port-initialization transaction.  The
returned state carries the resolved address and chip type. -/
def LiquidCrystal_IIC.init (c : LiquidCrystal_IIC) (env : InitEnv) :
    Int × LiquidCrystal_IIC :=
  let c :=
    if c._Addr == IIC_ADDR_UNKNOWN then
      { c with _Addr := LiquidCrystal_IIC.LocateDevice env.ack env.readAt }
    else c
  if c._Addr == IIC_ADDR_UNKNOWN then (-1, c)
  else
    let c :=
      if c._iicType == IIC_UNKNOWN then
        { c with _iicType := (LiquidCrystal_IIC.IdentifyIOexp c._Addr (env.readAt c._Addr)).2 }
      else c
    if c._iicType == IIC_UNKNOWN then (-1, c)
    else ((env.endStatus : Int), c)

/-- Modelled from the spec: MCP23008 GPIO register address from the missing
header `I2CIO.h` (part of the repository but not under `src/`); its numeric
value is only carried as an opaque command byte by the claims below. -/
def MCP23008_GPIO : Nat := 9

/-- Expander register I/O state: the private fields of class `I2CIO`
(`I2CIO.cpp`). -/
structure I2CIO where
  _i2cAddr : Nat
  _chipType : Nat
  _dirMask : Nat
  _shadow : Nat
  _initialised : Bool

/-- Model of `I2CIO::write` against a mocked transport whose `Wire.endTransmission`
returns `err`: masks the input-configured bits out of `value`, stores the
result in the shadow, transmits it (with the register byte `cmd` first when
`_chipType` is zero) and returns `status == 0`. -/
def I2CIO.write (st : I2CIO) (err cmd value : Nat) : I2CIO × List BusEv × Bool :=
  if st._initialised then
    let shadow := value &&& (255 ^^^ st._dirMask)
    ({ st with _shadow := shadow },
     [BusEv.beginT st._i2cAddr]
       ++ (if st._chipType == 0 then [BusEv.writeB cmd] else [])
       ++ [BusEv.writeB shadow, BusEv.endT],
     err == 0)
  else (st, [], true)

/-- Model of `I2CIO::digitalWrite` against a mocked transport: sets or clears the pin
bit (restricted to output-configured bits) in the shadow and pushes the new
shadow through `I2CIO.write`. -/
def I2CIO.digitalWrite (st : I2CIO) (err pin level : Nat) : I2CIO × List BusEv × Bool :=
  if st._initialised ∧ pin ≤ 7 then
    let writeVal := (1 <<< pin) &&& (255 ^^^ st._dirMask)
    let shadow :=
      if level == HIGH then st._shadow ||| writeVal
      else st._shadow &&& (255 ^^^ writeVal)
    I2CIO.write { st with _shadow := shadow } err MCP23008_GPIO shadow
  else (st, [], false)

/-- Data byte actually transmitted by a transaction trace: the byte of the
`write` event immediately preceding the closing `endTransmission`. -/
def lastDataByte (tr : List BusEv) : Option Nat :=
  match tr.reverse with
  | BusEv.endT :: BusEv.writeB b :: _ => some b
  | _ => none

/-! ## Claim C1: the identification probe and its classification -/

/-- C1: `IdentifyIOexp(address)` performs the destructive probe in this exact
order — one transaction writing byte `0x00` then byte `0xFF`, a second
transaction writing byte `0x00`, then a one-byte read — and classifies the
byte read back as: exactly `0xFF` yields MCP23008, exactly `0x00` yields
PCF8574, and any other value yields the Unknown sentinel. -/
theorem IdentifyIOexp_probe_and_classify (address d : Nat) :
    (LiquidCrystal_IIC.IdentifyIOexp address d).1 =
      [BusEv.beginT address, BusEv.writeB 0x00, BusEv.writeB 0xFF, BusEv.endT,
       BusEv.beginT address, BusEv.writeB 0x00, BusEv.endT,
       BusEv.reqFrom address 1]
    ∧ ((LiquidCrystal_IIC.IdentifyIOexp address d).2 = IIC_MCP23008 ↔ d = 0xFF)
    ∧ ((LiquidCrystal_IIC.IdentifyIOexp address d).2 = IIC_PCF8574 ↔ d = 0x00)
    ∧ (d ≠ 0xFF → d ≠ 0x00 →
        (LiquidCrystal_IIC.IdentifyIOexp address d).2 = IIC_UNKNOWN) := by
  unfold LiquidCrystal_IIC.IdentifyIOexp
  refine ⟨rfl, ?_, ?_, ?_⟩ <;>
    by_cases h1 : d = 0xFF <;> by_cases h2 : d = 0x00 <;>
      simp_all

/-- Concrete instance of C1: the mocked byte `0x80` classifies as Unknown, and
the probe trace is the documented two write transactions followed by the
one-byte read. -/
theorem IdentifyIOexp_probe_and_classify_witness :
    (LiquidCrystal_IIC.IdentifyIOexp 0x27 0x80).2 = IIC_UNKNOWN ∧
    (LiquidCrystal_IIC.IdentifyIOexp 0x27 0x80).1 =
      [BusEv.beginT 0x27, BusEv.writeB 0x00, BusEv.writeB 0xFF, BusEv.endT,
       BusEv.beginT 0x27, BusEv.writeB 0x00, BusEv.endT,
       BusEv.reqFrom 0x27 1] :=
  ⟨(IdentifyIOexp_probe_and_classify 0x27 0x80).2.2.2 (by decide) (by decide),
   (IdentifyIOexp_probe_and_classify 0x27 0x80).1⟩

/-! ## Claim C2: the address scan -/

/-- An address that acknowledges the empty probe transaction and whose
identification probe resolves to a known chip type. -/
def probeGood (ack : Nat → Bool) (readAt : Nat → Nat) (a : Nat) : Prop :=
  ack a = true ∧ (LiquidCrystal_IIC.IdentifyIOexp a (readAt a)).2 ≠ IIC_UNKNOWN

instance (ack : Nat → Bool) (readAt : Nat → Nat) (a : Nat) :
    Decidable (probeGood ack readAt a) := by
  unfold probeGood; infer_instance

/-- If no remaining address is acknowledging and identifiable, the scan loop
falls through to the unresolved sentinel. -/
theorem locateLoop_none (ack : Nat → Bool) (readAt : Nat → Nat) :
    ∀ n start,
      (∀ j, start ≤ j → j < start + n → ¬ probeGood ack readAt j) →
      LiquidCrystal_IIC.locateLoop ack readAt n start = IIC_ADDR_UNKNOWN := by
  intro n
  induction n with
  | zero => intro start _; rfl
  | succ n ih =>
    intro start h
    have hs := h start (Nat.le_refl _) (by omega)
    unfold LiquidCrystal_IIC.locateLoop
    by_cases ha : ack start = true
    · have hid : (LiquidCrystal_IIC.IdentifyIOexp start (readAt start)).2 = IIC_UNKNOWN := by
        by_contra hc
        exact hs ⟨ha, hc⟩
      simp only [ha, if_true, hid, beq_self_eq_true]
      exact ih (start + 1) (fun j h1 h2 => h j (by omega) (by omega))
    · simp only [ha, if_false]
      exact ih (start + 1) (fun j h1 h2 => h j (by omega) (by omega))

/-- The scan loop returns the first acknowledging and identifiable address in
its remaining range. -/
theorem locateLoop_finds (ack : Nat → Bool) (readAt : Nat → Nat) :
    ∀ n start k,
      start ≤ k → k < start + n → probeGood ack readAt k →
      (∀ j, start ≤ j → j < k → ¬ probeGood ack readAt j) →
      LiquidCrystal_IIC.locateLoop ack readAt n start = k := by
  intro n
  induction n with
  | zero => intro start k h1 h2 _ _; omega
  | succ n ih =>
    intro start k h1 h2 hg hmin
    unfold LiquidCrystal_IIC.locateLoop
    by_cases he : start = k
    · subst he
      obtain ⟨ha, hid⟩ := hg
      have hid' : ((LiquidCrystal_IIC.IdentifyIOexp start (readAt start)).2
          == IIC_UNKNOWN) = false := by
        simpa using hid
      simp [ha, hid']
    · have hs : ¬ probeGood ack readAt start := hmin start (Nat.le_refl _) (by omega)
      by_cases ha : ack start = true
      · have hid : (LiquidCrystal_IIC.IdentifyIOexp start (readAt start)).2 = IIC_UNKNOWN := by
          by_contra hc
          exact hs ⟨ha, hc⟩
        simp only [ha, if_true, hid, beq_self_eq_true]
        exact ih (start + 1) k (by omega) (by omega) hg
          (fun j hj1 hj2 => hmin j (by omega) hj2)
      · simp only [ha, if_false]
        exact ih (start + 1) k (by omega) (by omega) hg
          (fun j hj1 hj2 => hmin j (by omega) hj2)

/-- C2: `LocateDevice` scans addresses 0..127 in ascending order; it returns
the first address that acknowledges and is positively identified (skipping
acknowledging-but-unidentifiable addresses), and the unresolved sentinel when
no address over the 128-address space is positively identified. -/
theorem LocateDevice_first_identified (ack : Nat → Bool) (readAt : Nat → Nat) :
    (∀ k, k ≤ 127 → probeGood ack readAt k →
      (∀ j, j < k → ¬ probeGood ack readAt j) →
      LiquidCrystal_IIC.LocateDevice ack readAt = k)
    ∧ ((∀ j, j ≤ 127 → ¬ probeGood ack readAt j) →
      LiquidCrystal_IIC.LocateDevice ack readAt = IIC_ADDR_UNKNOWN) := by
  constructor
  · intro k hk hg hmin
    exact locateLoop_finds ack readAt 128 0 k (Nat.zero_le _) (by omega) hg
      (fun j _ hj2 => hmin j hj2)
  · intro h
    exact locateLoop_none ack readAt 128 0 (fun j _ hj => h j (by omega))

/-- Concrete instance of C2: address 60 acknowledges but reads back `0x01`
(unidentifiable) and address 65 acknowledges and reads back `0x00` (PCF8574);
the scan skips 60 and returns 65. -/
theorem LocateDevice_first_identified_witness :
    LiquidCrystal_IIC.LocateDevice (fun a => a == 60 || a == 65)
      (fun a => if a == 65 then 0x00 else 0x01) = 65 :=
  (LocateDevice_first_identified (fun a => a == 60 || a == 65)
      (fun a => if a == 65 then 0x00 else 0x01)).1 65
    (by decide) (by decide) (by decide)

/-! ## Bit-level helpers for the rendering claims -/

/-- The loop test `(value >> i) & 1 == 1` of `write4bits` reads bit `i` of the
nibble. -/
theorem shiftRight_and_one_beq (x i : Nat) : ((x >>> i) &&& 1 == 1) = x.testBit i := by
  rw [Nat.and_one_is_mod, Nat.shiftRight_eq_div_pow, Nat.testBit_to_div_mod]
  rcases Nat.mod_two_eq_zero_or_one (x / 2 ^ i) with h | h <;> simp [h]

/-- A single-pin mask `1 << p` stored in a byte field, for a pin position
below 8, is the power of two `2 ^ p`. -/
theorem one_shiftLeft_mod (p : Nat) (hp : p < 8) : (1 <<< p) % 256 = 2 ^ p := by
  rw [Nat.one_shiftLeft]
  refine Nat.mod_eq_of_lt ?_
  calc 2 ^ p ≤ 2 ^ 7 := Nat.pow_le_pow_right (by omega) (by omega)
    _ < 256 := by norm_num

/-- A bit set in a single-pin byte mask identifies the pin position. -/
theorem testBit_pin_mask {p i : Nat} (hp : p < 8)
    (h : ((1 <<< p) % 256).testBit i = true) : i = p := by
  rw [one_shiftLeft_mod p hp] at h
  by_contra hne
  rw [Nat.testBit_two_pow_of_ne (fun hh => hne hh.symm)] at h
  exact Bool.false_ne_true h

/-- A bit set in a guarded contribution of the rendering loop is a bit of the
contributed mask. -/
theorem testBit_cond_or (b : Bool) (x i : Nat)
    (h : (if b then x else 0).testBit i = true) : x.testBit i = true := by
  cases b with
  | false => simp [Nat.zero_testBit] at h
  | true => simpa using h

/-! ## Claim C4: the rendered byte touches only configured bits -/

/-- C4: for every pin assignment in which enable, rw, rs and the four data
lines are pairwise distinct bit positions in 0..7, every nibble, mode and
backlight status mask drawn from the configured backlight bit, the byte
rendered by `write4bits` never sets a bit outside the union of the configured
pin bits. -/
theorem write4bits_no_stray_bits (c : LiquidCrystal_IIC)
    (e rw rs p0 p1 p2 p3 bl nibble mode : Nat)
    (he : e < 8) (hrw : rw < 8) (hrs8 : rs < 8)
    (h08 : p0 < 8) (h18 : p1 < 8) (h28 : p2 < 8) (h38 : p3 < 8) (hbl8 : bl < 8)
    (hdist : List.Pairwise (fun a b => a ≠ b) [e, rw, rs, p0, p1, p2, p3])
    (hEn : c._En = (1 <<< e) % 256) (hRw : c._Rw = (1 <<< rw) % 256)
    (hRs : c._Rs = (1 <<< rs) % 256)
    (hd0 : c._data_pins 0 = (1 <<< p0) % 256) (hd1 : c._data_pins 1 = (1 <<< p1) % 256)
    (hd2 : c._data_pins 2 = (1 <<< p2) % 256) (hd3 : c._data_pins 3 = (1 <<< p3) % 256)
    (hsts : c._backlightStsMask = 0 ∨ c._backlightStsMask = (1 <<< bl) % 256)
    (hmode : mode = COMMAND ∨ mode = DATA) :
    ∀ i, (c.renderNibble nibble mode).testBit i = true →
      i ∈ [e, rw, rs, p0, p1, p2, p3, bl] := by
  intro i h
  simp only [LiquidCrystal_IIC.renderNibble, Nat.testBit_or, Bool.or_eq_true] at h
  rcases h with ((((h | h) | h) | h) | h) | h
  · have hi := testBit_pin_mask h08 (by rw [← hd0]; exact testBit_cond_or _ _ _ h)
    simp [hi]
  · have hi := testBit_pin_mask h18 (by rw [← hd1]; exact testBit_cond_or _ _ _ h)
    simp [hi]
  · have hi := testBit_pin_mask h28 (by rw [← hd2]; exact testBit_cond_or _ _ _ h)
    simp [hi]
  · have hi := testBit_pin_mask h38 (by rw [← hd3]; exact testBit_cond_or _ _ _ h)
    simp [hi]
  · rcases hmode with hm | hm
    · subst hm
      simp [COMMAND, DATA, Nat.zero_testBit] at h
    · subst hm
      simp only [DATA, beq_self_eq_true, if_true] at h
      have hi := testBit_pin_mask hrs8 (by rw [← hRs]; exact h)
      simp [hi]
  · rcases hsts with hs | hs
    · rw [hs] at h
      simp [Nat.zero_testBit] at h
    · rw [hs] at h
      have hi := testBit_pin_mask hbl8 h
      simp [hi]

/-- Example configuration: the ElectroFun wiring (en=6, rw=5, rs=4,
data lines on bits 0..3) with a backlight pin on bit 7. -/
def cfgEx : LiquidCrystal_IIC :=
  (LiquidCrystal_IIC.config 0x27 IIC_PCF8574 6 5 4 0 1 2 3).setBacklightPin 7 NEGATIVE

/-- Concrete instance of C4: on the ElectroFun wiring, bit 1 of the byte
rendered for nibble `0b1010` in data mode is set, and bit 1 is indeed one of
the configured pin positions. -/
theorem write4bits_no_stray_bits_witness :
    (cfgEx.renderNibble 0b1010 DATA).testBit 1 = true ∧
    1 ∈ [6, 5, 4, 0, 1, 2, 3, 7] :=
  ⟨by decide,
   write4bits_no_stray_bits cfgEx 6 5 4 0 1 2 3 7 0b1010 DATA
     (by decide) (by decide) (by decide) (by decide) (by decide) (by decide)
     (by decide) (by decide) (by decide) (by decide) (by decide) (by decide)
     (by decide) (by decide) (by decide) (by decide) (by decide)
     (Or.inr rfl) 1 (by decide)⟩

/-! ## Claim C5: the rendered byte as an OR of contributions -/

/-- C5: the rendered byte is the OR of `dataBits[i]` for each set bit `i`
(least-significant first) of the nibble, the register-select mask if and only
if the mode is Data, and the backlight status mask unconditionally; in
particular nibble `0b1010` in data mode with backlight mask 0 renders to
`dataBits[1] | dataBits[3] | registerSelectBit`. -/
theorem renderNibble_or_decomposition (c : LiquidCrystal_IIC) (nib mode : Nat)
    (hmode : mode = COMMAND ∨ mode = DATA) :
    c.renderNibble nib mode =
      (if nib.testBit 0 then c._data_pins 0 else 0)
        ||| (if nib.testBit 1 then c._data_pins 1 else 0)
        ||| (if nib.testBit 2 then c._data_pins 2 else 0)
        ||| (if nib.testBit 3 then c._data_pins 3 else 0)
        ||| (if mode = DATA then c._Rs else 0)
        ||| c._backlightStsMask
    ∧ (c._backlightStsMask = 0 →
        c.renderNibble 0b1010 DATA = c._data_pins 1 ||| c._data_pins 3 ||| c._Rs) := by
  constructor
  · rcases hmode with hm | hm <;> subst hm <;>
      simp [LiquidCrystal_IIC.renderNibble, COMMAND, DATA, Nat.testBit_to_div_mod,
        Nat.shiftRight_eq_div_pow, Nat.and_one_is_mod]
  · intro hbl
    simp [LiquidCrystal_IIC.renderNibble, hbl, DATA]

/-- Concrete instance of C5: on the ElectroFun wiring (backlight status mask
still 0), nibble `0b1010` in data mode renders to `dataBits[1] | dataBits[3] |
registerSelectBit`. -/
theorem renderNibble_or_decomposition_witness :
    cfgEx.renderNibble 0b1010 DATA =
      cfgEx._data_pins 1 ||| cfgEx._data_pins 3 ||| cfgEx._Rs :=
  (renderNibble_or_decomposition cfgEx 0b1010 DATA (Or.inr rfl)).2 (by decide)

/-! ## Shared facts about `send` -/

/-- With the unresolved-address sentinel still in place, `send` issues no bus
events at all. -/
theorem send_noop_of_unresolved (c : LiquidCrystal_IIC)
    (h : c._Addr = IIC_ADDR_UNKNOWN) :
    ∀ value mode, (c.send value mode).2 = [] := by
  intro v m
  unfold LiquidCrystal_IIC.send
  simp [h]

/-- With a resolved address, a command-mode `send` always opens a transaction
(the trace is nonempty). -/
theorem send_command_nonempty (c : LiquidCrystal_IIC)
    (h : c._Addr ≠ IIC_ADDR_UNKNOWN) (value : Nat) :
    (c.send value COMMAND).2 ≠ [] := by
  have hb : (c._Addr == IIC_ADDR_UNKNOWN) = false := by simpa using h
  unfold LiquidCrystal_IIC.send
  simp [hb, COMMAND, DATA, FOUR_BITS]

/-! ## Claim C3: transaction layout of a full-byte send (corrected) -/

/-- Counterexample to C3 as stated: with a resolved address, sending the
carriage-return byte `0x0D` in Data mode opens no bus transaction at all (the
trace is empty), so not *every* full-byte Command-or-Data send opens one
transaction. -/
theorem send_full_byte_shape_counterexample :
    cfgEx._Addr ≠ IIC_ADDR_UNKNOWN ∧ (cfgEx.send 0x0D DATA).2 = [] := by
  constructor
  · decide
  · rfl

/-- C3 (amended): for every full-byte send with a resolved address — in
Command mode, or in Data mode with a value other than carriage return and
line feed — the driver opens one bus transaction and within it: first
transmits the OLAT register-pointer byte if and only if the chip type is
MCP23008, then sends the high nibble followed by the low nibble, each nibble
emitted as the write of `renderedByte | enableBit` immediately followed by
`renderedByte & ~enableBit`; in FOUR_BITS mode only the single low nibble of
the value is sent, as a command. -/
theorem send_full_byte_shape (c : LiquidCrystal_IIC) (value mode : Nat)
    (haddr : c._Addr ≠ IIC_ADDR_UNKNOWN)
    (hmode : mode = COMMAND ∨ (mode = DATA ∧ value ≠ 0x0D ∧ value ≠ 0x0A)) :
    (c.send value mode).2 =
      [BusEv.beginT c._Addr]
        ++ (if c._iicType = IIC_MCP23008 then [BusEv.writeB 0x0A] else [])
        ++ [BusEv.writeB (c.renderNibble (value >>> 4) mode ||| c._En),
            BusEv.writeB (c.renderNibble (value >>> 4) mode &&& (255 ^^^ c._En)),
            BusEv.writeB (c.renderNibble (value &&& 0x0F) mode ||| c._En),
            BusEv.writeB (c.renderNibble (value &&& 0x0F) mode &&& (255 ^^^ c._En)),
            BusEv.endT]
    ∧ (c.send value FOUR_BITS).2 =
      [BusEv.beginT c._Addr]
        ++ (if c._iicType = IIC_MCP23008 then [BusEv.writeB 0x0A] else [])
        ++ [BusEv.writeB (c.renderNibble (value &&& 0x0F) COMMAND ||| c._En),
            BusEv.writeB (c.renderNibble (value &&& 0x0F) COMMAND &&& (255 ^^^ c._En)),
            BusEv.endT] := by
  have hb : (c._Addr == IIC_ADDR_UNKNOWN) = false := by simpa using haddr
  constructor
  · rcases hmode with hm | ⟨hm, h13, h10⟩
    · subst hm
      by_cases hc : c._iicType = IIC_MCP23008 <;>
        simp [LiquidCrystal_IIC.send, hb, hc, COMMAND, DATA, FOUR_BITS,
          LiquidCrystal_IIC.write4bits, LiquidCrystal_IIC.pulseEnable,
          LiquidCrystal_IIC.olatPreamble]
    · subst hm
      by_cases hc : c._iicType = IIC_MCP23008 <;>
        simp [LiquidCrystal_IIC.send, hb, hc, h13, h10, COMMAND, DATA, FOUR_BITS,
          LiquidCrystal_IIC.write4bits, LiquidCrystal_IIC.pulseEnable,
          LiquidCrystal_IIC.olatPreamble]
  · by_cases hc : c._iicType = IIC_MCP23008 <;>
      simp [LiquidCrystal_IIC.send, hb, hc, COMMAND, DATA, FOUR_BITS,
        LiquidCrystal_IIC.write4bits, LiquidCrystal_IIC.pulseEnable,
        LiquidCrystal_IIC.olatPreamble]

/-- Concrete instance of C3 (amended): sending the function-set command
`0x28` on the ElectroFun wiring opens one transaction containing exactly the
two enable pulse pairs for nibbles `0x2` then `0x8`. -/
theorem send_full_byte_shape_witness :
    (cfgEx.send 0x28 COMMAND).2 =
      [BusEv.beginT cfgEx._Addr]
        ++ (if cfgEx._iicType = IIC_MCP23008 then [BusEv.writeB 0x0A] else [])
        ++ [BusEv.writeB (cfgEx.renderNibble (0x28 >>> 4) COMMAND ||| cfgEx._En),
            BusEv.writeB (cfgEx.renderNibble (0x28 >>> 4) COMMAND &&& (255 ^^^ cfgEx._En)),
            BusEv.writeB (cfgEx.renderNibble (0x28 &&& 0x0F) COMMAND ||| cfgEx._En),
            BusEv.writeB (cfgEx.renderNibble (0x28 &&& 0x0F) COMMAND &&& (255 ^^^ cfgEx._En)),
            BusEv.endT] :=
  (send_full_byte_shape cfgEx 0x28 COMMAND (by decide) (Or.inl rfl)).1

/-! ## Claim C7: carriage return and line feed are discarded in Data mode -/

/-- C7: sending `0x0D` or `0x0A` in Data mode performs zero bus writes and
leaves the driver state unchanged; the suppression applies only in Data mode:
with a resolved address the same values sent as commands do open a
transaction. -/
theorem send_discards_cr_lf (c : LiquidCrystal_IIC) (value : Nat)
    (hv : value = 0x0D ∨ value = 0x0A) :
    (c.send value DATA).2 = [] ∧ (c.send value DATA).1 = c
    ∧ (c._Addr ≠ IIC_ADDR_UNKNOWN → (c.send value COMMAND).2 ≠ []) := by
  refine ⟨?_, ?_, fun h => send_command_nonempty c h value⟩ <;>
    · rcases hv with rfl | rfl <;>
        · unfold LiquidCrystal_IIC.send
          by_cases h : (c._Addr == IIC_ADDR_UNKNOWN) = true <;>
            simp [h, DATA, FOUR_BITS]

/-- Concrete instance of C7: on the ElectroFun wiring, carriage return in
Data mode emits nothing while the same byte as a command opens a
transaction. -/
theorem send_discards_cr_lf_witness :
    (cfgEx.send 0x0D DATA).2 = [] ∧ (cfgEx.send 0x0D COMMAND).2 ≠ [] :=
  ⟨(send_discards_cr_lf cfgEx 0x0D (Or.inl rfl)).1,
   (send_discards_cr_lf cfgEx 0x0D (Or.inl rfl)).2.2 (by decide)⟩

/-! ## Claim C8: backlight status mask -/

/-- C8: with a configured (non-zero) backlight pin mask, `setBacklight` with a
non-zero level yields a status mask equal to the pin mask under Positive
polarity and equal to 0 under Negative polarity; and the resulting status mask
is determined solely by the requested level and the polarity (any two states
agreeing on pin mask and polarity — in particular states reached by arbitrary
earlier on/off calls — end up with the same status mask). -/
theorem setBacklight_status_mask (c : LiquidCrystal_IIC) (value : Nat)
    (hpin : c._backlightPinMask ≠ 0) :
    (value > 0 → c._polarity = POSITIVE →
      ((c.setBacklight value).1)._backlightStsMask = c._backlightPinMask)
    ∧ (value > 0 → c._polarity = NEGATIVE →
      ((c.setBacklight value).1)._backlightStsMask = 0)
    ∧ (∀ c' : LiquidCrystal_IIC, c'._backlightPinMask = c._backlightPinMask →
        c'._polarity = c._polarity →
        ((c'.setBacklight value).1)._backlightStsMask
          = ((c.setBacklight value).1)._backlightStsMask) := by
  have hb : (c._backlightPinMask != 0) = true := by simpa using hpin
  refine ⟨?_, ?_, ?_⟩
  · intro hv hpol
    have hv0 : value ≠ 0 := by omega
    unfold LiquidCrystal_IIC.setBacklight
    simp [hb, hpol, hv, hv0]
  · intro hv hpol
    have hv0 : value ≠ 0 := by omega
    unfold LiquidCrystal_IIC.setBacklight
    simp [hb, hpol, hv0]
  · intro c' h1 h2
    have hb' : (c'._backlightPinMask != 0) = true := by
      rw [h1]; exact hb
    unfold LiquidCrystal_IIC.setBacklight
    simp [hb, hb', h1, h2]

/-- Concrete instance of C8: a backlight configured on pin 7 with Negative
polarity yields status mask 0 when switched on. -/
theorem setBacklight_status_mask_witness :
    ((cfgEx.setBacklight 1).1)._backlightStsMask = 0 :=
  (setBacklight_status_mask cfgEx 1 (by decide)).2.1 (by decide) rfl

/-! ## Claim C10: setBacklight does not check the address sentinel -/

/-- C10: with a configured (non-zero) backlight pin mask, `setBacklight`
issues a bus transaction unconditionally — the trace is nonempty and is
addressed to the instance's current bus address, whatever that is (including
the unresolved sentinel `0xFF`, since `setBacklight`, unlike `send`, performs
no sentinel check). -/
theorem setBacklight_unconditional_transaction (c : LiquidCrystal_IIC) (value : Nat)
    (hpin : c._backlightPinMask ≠ 0) :
    (c.setBacklight value).2 ≠ [] ∧
    ((c.setBacklight value).2).head? = some (BusEv.beginT c._Addr) := by
  have hb : (c._backlightPinMask != 0) = true := by simpa using hpin
  unfold LiquidCrystal_IIC.setBacklight
  simp [hb]

/-- Never-begun configuration with the address still unresolved but a
backlight pin configured. -/
def cfgNoAddr : LiquidCrystal_IIC :=
  (LiquidCrystal_IIC.config IIC_ADDR_UNKNOWN IIC_UNKNOWN 6 5 4 0 1 2 3).setBacklightPin 7 POSITIVE

/-- Concrete instance of C10: with the address still the unresolved sentinel
`0xFF` and `begin` never called, `setBacklight` still opens a transaction
addressed to `0xFF`. -/
theorem setBacklight_unconditional_transaction_witness :
    (cfgNoAddr.setBacklight 1).2 ≠ [] ∧
    ((cfgNoAddr.setBacklight 1).2).head? = some (BusEv.beginT IIC_ADDR_UNKNOWN) :=
  setBacklight_unconditional_transaction cfgNoAddr 1 (by decide)

/-! ## Claim C6: failure propagation from init (corrected) -/

/-- Both failure exits of `init` return `-1`: when the address stays
unresolved, and when the chip type stays unresolved. -/
theorem init_status (c : LiquidCrystal_IIC) (env : InitEnv) :
    ((c.init env).2._Addr = IIC_ADDR_UNKNOWN → (c.init env).1 = -1)
    ∧ ((c.init env).2._iicType = IIC_UNKNOWN → (c.init env).1 = -1) := by
  unfold LiquidCrystal_IIC.init
  by_cases hA : (c._Addr == IIC_ADDR_UNKNOWN) = true
  · simp only [hA, if_true]
    by_cases hL : ((LiquidCrystal_IIC.LocateDevice env.ack env.readAt)
        == IIC_ADDR_UNKNOWN) = true
    · simp [hL]
    · have hL' : LiquidCrystal_IIC.LocateDevice env.ack env.readAt ≠ IIC_ADDR_UNKNOWN := by
        simpa using hL
      by_cases hT : (c._iicType == IIC_UNKNOWN) = true
      · by_cases hI : ((LiquidCrystal_IIC.IdentifyIOexp
            (LiquidCrystal_IIC.LocateDevice env.ack env.readAt)
            (env.readAt (LiquidCrystal_IIC.LocateDevice env.ack env.readAt))).2
            == IIC_UNKNOWN) = true
        · simp [hL, hT, hI]
        · have hI' := of_decide_eq_false (by simpa using hI)
          simp [hL, hT, hI, hL', hI']
      · have hT' : c._iicType ≠ IIC_UNKNOWN := by simpa using hT
        simp [hL, hT, hL', hT']
  · have hA' : c._Addr ≠ IIC_ADDR_UNKNOWN := by simpa using hA
    simp only [hA, if_false]
    by_cases hT : (c._iicType == IIC_UNKNOWN) = true
    · by_cases hI : ((LiquidCrystal_IIC.IdentifyIOexp c._Addr (env.readAt c._Addr)).2
          == IIC_UNKNOWN) = true
      · simp [hA, hT, hI]
      · have hI' := of_decide_eq_false (by simpa using hI)
        simp [hA, hT, hI, hA', hI']
    · have hT' : c._iicType ≠ IIC_UNKNOWN := by simpa using hT
      simp [hA, hT, hA', hT']

/-- Counterexample to C6 as stated: with a user-supplied address but
auto-detected chip type, an unidentifiable device (probe reads back `0x01`)
makes `init` fail with the chip type unresolved, yet a subsequent Data-mode
`send` still issues bus writes, because `send` only checks the address
sentinel. -/
theorem init_failure_propagation_counterexample :
    ((LiquidCrystal_IIC.config 0x27 IIC_UNKNOWN 6 5 4 0 1 2 3).init
        ⟨fun _ => true, fun _ => 0x01, 0⟩).1 ≠ 0
    ∧ ((LiquidCrystal_IIC.config 0x27 IIC_UNKNOWN 6 5 4 0 1 2 3).init
        ⟨fun _ => true, fun _ => 0x01, 0⟩).2._iicType = IIC_UNKNOWN
    ∧ (((LiquidCrystal_IIC.config 0x27 IIC_UNKNOWN 6 5 4 0 1 2 3).init
        ⟨fun _ => true, fun _ => 0x01, 0⟩).2.send 0x41 DATA).2 ≠ [] := by
  refine ⟨by decide, by decide, by decide⟩

/-- C6 (amended): when `init` ends with the bus address unresolved it returns
a non-zero status and every subsequent `send` is a silent no-op issuing no
bus writes; when it ends with the chip type unresolved it also returns a
non-zero status, but whenever the address itself is resolved, subsequent
`send` calls still issue bus writes (the no-op guard in `send` checks only
the address sentinel). -/
theorem init_failure_propagation (c : LiquidCrystal_IIC) (env : InitEnv) :
    ((c.init env).2._Addr = IIC_ADDR_UNKNOWN →
      (c.init env).1 = -1 ∧ ∀ value mode, (((c.init env).2).send value mode).2 = [])
    ∧ ((c.init env).2._iicType = IIC_UNKNOWN → (c.init env).1 = -1)
    ∧ ((c.init env).2._Addr ≠ IIC_ADDR_UNKNOWN →
        ∀ value, (((c.init env).2).send value COMMAND).2 ≠ []) :=
  ⟨fun h => ⟨(init_status c env).1 h, send_noop_of_unresolved _ h⟩,
   (init_status c env).2,
   fun h value => send_command_nonempty _ h value⟩

/-- Concrete instance of C6 (amended): with no acknowledging device on the
mocked bus, auto-location fails, `init` returns `-1`, and a subsequent send
emits nothing. -/
theorem init_failure_propagation_witness :
    (cfgNoAddr.init ⟨fun _ => false, fun _ => 0x01, 0⟩).1 = -1
    ∧ ((cfgNoAddr.init ⟨fun _ => false, fun _ => 0x01, 0⟩).2.send 0x41 DATA).2 = [] :=
  ⟨((init_failure_propagation cfgNoAddr ⟨fun _ => false, fun _ => 0x01, 0⟩).1
      (by decide)).1,
   ((init_failure_propagation cfgNoAddr ⟨fun _ => false, fun _ => 0x01, 0⟩).1
      (by decide)).2 0x41 DATA⟩

/-! ## Claim C9: the I2CIO output shadow invariant -/

/-- C9: for the expander register I/O component, after every `write(cmd,
value)` and every `digitalWrite(pin, level)` (on an initialised instance with
a valid pin), the output shadow equals the value actually transmitted as the
transaction's data byte; the transmitted byte is the written value with the
input-configured bits masked out (`value & ~directionMask`), and the call
returns the success status of the underlying transport transaction — all of
this also when the transport transaction fails (`err ≠ 0`). -/
theorem i2cio_write_shadow_invariant (st : I2CIO) (err cmd value pin level : Nat)
    (hinit : st._initialised = true) (hpin : pin ≤ 7) :
    ((st.write err cmd value).1._shadow = value &&& (255 ^^^ st._dirMask)
      ∧ lastDataByte (st.write err cmd value).2.1
          = some ((st.write err cmd value).1._shadow)
      ∧ (st.write err cmd value).2.2 = (err == 0))
    ∧ ((st.digitalWrite err pin level).1._shadow =
        (if level = HIGH
          then st._shadow ||| ((1 <<< pin) &&& (255 ^^^ st._dirMask))
          else st._shadow &&& (255 ^^^ ((1 <<< pin) &&& (255 ^^^ st._dirMask))))
          &&& (255 ^^^ st._dirMask)
      ∧ lastDataByte (st.digitalWrite err pin level).2.1
          = some ((st.digitalWrite err pin level).1._shadow)
      ∧ (st.digitalWrite err pin level).2.2 = (err == 0)) := by
  constructor
  · unfold I2CIO.write
    by_cases hc : (st._chipType == 0) = true <;>
      simp [hinit, hc, lastDataByte]
  · unfold I2CIO.digitalWrite I2CIO.write
    by_cases hc : (st._chipType == 0) = true <;>
      by_cases hl : level = HIGH <;>
        simp [hinit, hpin, hc, hl, lastDataByte]

/-- Initialised expander register I/O state at address `0x20` with the high
nibble configured as inputs. -/
def st0 : I2CIO := ⟨0x20, 1, 0xF0, 0, true⟩

/-- Concrete instance of C9: writing `0xAB` transmits and shadows `0x0B`
(input bits masked out) and reports failure when the transport fails
(`err = 4`); a `digitalWrite` keeps the shadow equal to the transmitted
byte. -/
theorem i2cio_write_shadow_invariant_witness :
    (st0.write 4 9 0xAB).1._shadow = 0x0B
    ∧ (st0.write 4 9 0xAB).2.2 = false
    ∧ lastDataByte (st0.digitalWrite 4 2 HIGH).2.1
        = some ((st0.digitalWrite 4 2 HIGH).1._shadow) :=
  ⟨((i2cio_write_shadow_invariant st0 4 9 0xAB 2 HIGH rfl (by decide)).1.1).trans
      (by decide),
   ((i2cio_write_shadow_invariant st0 4 9 0xAB 2 HIGH rfl (by decide)).1.2.2).trans
      (by decide),
   (i2cio_write_shadow_invariant st0 4 9 0xAB 2 HIGH rfl (by decide)).2.2.1⟩
